import Mathlib

/-!
Shallow embedding of `src/metric.rs` from the bioyino-metric crate, at the
canonical double-precision instantiation (`F = f64`, where `FromF64::from_f64`
and `AsPrimitive::<f64>::as_` are both the identity).  Machine doubles are
modelled exactly as rationals (`ℚ`); `u64`/`u32` fields are `Nat` with
explicit wraparound where the code can overflow.  `HashSet<u64>` is modelled
as `Finset Nat` (Rust's `PartialEq` on `HashSet` is extensional set
equality).  The Cap'n Proto record type produced by the generated
`protocol_capnp` module is not part of the sources and is modelled from the
spec's schema description.
-/

/-- The `MetricError` enum of `src/metric.rs`.  The `Capnp`/`CapnpSchema`
variants wrap lower-level decode errors whose payloads are irrelevant here. -/
inductive MetricError where
  | floatToRatio : MetricError
  | sampling : MetricError
  | aggregating : MetricError
  | capnp : MetricError
  | capnpSchema : MetricError
  | badTypeName (s : String) : MetricError
  deriving DecidableEq

/-- The `MetricType<F>` tagged union of `src/metric.rs`, with `F = f64`
modelled as `ℚ`.  `Gauge(Option<i8>)` is modelled with `Option ℤ` (the code
never performs arithmetic on the sign, so the `i8` range is immaterial);
`Set(HashSet<u64>)` is modelled as `Finset Nat`. -/
inductive MetricType where
  | counter : MetricType
  | diffCounter (previous : ℚ) : MetricType
  | timer (agg : List ℚ) : MetricType
  | gauge (sign : Option ℤ) : MetricType
  | set (hs : Finset Nat) : MetricType
  deriving DecidableEq

/-- The `Metric<F>` struct of `src/metric.rs` at `F = f64`:
value, type-discriminated state, optional timestamp (`u64`),
update counter (`u32`), optional sampling rate (`f32`, modelled as `ℚ`). -/
structure Metric where
  value : ℚ
  mtype : MetricType
  timestamp : Option Nat
  update_counter : Nat
  sampling : Option ℚ
  deriving DecidableEq

/-- Round `num / den` to the nearest integer, ties to even
(the IEEE-754 default rounding mode used by `f64`). -/
def roundNearestEven (num den : Nat) : Nat :=
  let q := num / den
  let r := num % den
  if 2 * r < den then q
  else if den < 2 * r then q + 1
  else if q % 2 = 0 then q else q + 1

/-- `2 ^ g ≤ n / d` for a (possibly negative) integer exponent `g`,
decided by cross-multiplication. -/
def pow2le (g : ℤ) (n d : Nat) : Bool :=
  if 0 ≤ g then 2 ^ g.toNat * d ≤ n else d ≤ 2 ^ (-g).toNat * n

/-- Fuel-driven `⌊log₂ n⌋` (0 for `n ≤ 1`); structurally recursive so that
it evaluates inside the kernel.  Any `fuel ≥ ⌊log₂ n⌋` gives the exact
answer; callers pass `n` itself. -/
def log2fuel : Nat → Nat → Nat
  | 0, _ => 0
  | fuel + 1, n => if 2 ≤ n then log2fuel fuel (n / 2) + 1 else 0

/-- `⌊log₂ (n / d)⌋` for positive naturals `n`, `d`:
guess from the bit lengths, then adjust by at most one in each direction. -/
def floorLog2Nat (n d : Nat) : ℤ :=
  let g : ℤ := (log2fuel n n : ℤ) - (log2fuel d d : ℤ)
  let g := if pow2le (g + 1) n d then g + 1 else g
  if pow2le g n d then g else g - 1

/-- Model of `f64::to_bits` composed with the identity cast
`AsPrimitive::<f64>::as_` used at `src/metric.rs:109`: the IEEE-754 binary64
bit pattern of the rational `x` (rounded to nearest, ties to even — the
rounding a Rust `f64` value has already undergone, so this is exact on every
rational that is a representable double).  Covers the normal, subnormal,
zero and overflow-to-infinity ranges. -/
def f64bits (x : ℚ) : Nat :=
  if x = 0 then 0
  else
    let s : Nat := if x < 0 then 2 ^ 63 else 0
    let n := x.num.natAbs
    let d := x.den
    let e := floorLog2Nat n d
    if 1023 < e then s + 2047 * 2 ^ 52
    else if e < -1022 then s + roundNearestEven (n * 2 ^ 1074) d
    else
      let k : ℤ := 52 - e
      let m := if 0 ≤ k then roundNearestEven (n * 2 ^ k.toNat) d
               else roundNearestEven n (d * 2 ^ (-k).toNat)
      if m = 2 ^ 53 then
        if e = 1023 then s + 2047 * 2 ^ 52
        else s + (e + 1024).toNat * 2 ^ 52
      else s + (e + 1023).toNat * 2 ^ 52 + (m - 2 ^ 52)

/-- `Metric::new` (`src/metric.rs:96-112`): seed `update_counter = 1`; a
`Timer` pushes `value` onto its sequence, a `Set` inserts the 64-bit pattern
of `value`.  The Rust signature returns `Result` but is unconditionally `Ok`,
so the model returns the metric directly. -/
def Metric.new (value : ℚ) (mtype : MetricType) (timestamp : Option Nat)
    (sampling : Option ℚ) : Metric :=
  let m : Metric := { value, mtype, timestamp, sampling, update_counter := 1 }
  match m.mtype with
  | MetricType.timer agg => { m with mtype := MetricType.timer (agg ++ [value]) }
  | MetricType.set hs => { m with mtype := MetricType.set (insert (f64bits value) hs) }
  | _ => m

/-- `Metric::accumulate` (`src/metric.rs:115-155`).  The Rust mutates `self`
in place and returns `Result<(), MetricError>`; the model returns the final
state of `self` paired with the result.  `update_counter` is summed first,
unconditionally (`u32` wrapping addition), before the variant match; the
match arms are in source order. -/
def Metric.accumulate (self : Metric) (new : Metric) :
    Metric × Except MetricError Unit :=
  let s : Metric :=
    { self with update_counter := (self.update_counter + new.update_counter) % 2 ^ 32 }
  match s.mtype, new.mtype with
  | MetricType.counter, MetricType.counter =>
      ({ s with value := s.value + new.value }, Except.ok ())
  | MetricType.diffCounter previous, MetricType.diffCounter _ =>
      let prev := previous
      let diff := if new.value > prev then new.value - prev else new.value
      ({ s with mtype := MetricType.diffCounter new.value, value := s.value + diff },
       Except.ok ())
  | MetricType.gauge _, MetricType.gauge d =>
      -- the four Gauge arms of the Rust match, tested in source order
      if d = some 1 then ({ s with value := s.value + new.value }, Except.ok ())
      else if d = some (-1) then ({ s with value := s.value - new.value }, Except.ok ())
      else if d = none then ({ s with value := new.value }, Except.ok ())
      else (s, Except.error MetricError.aggregating)
  | MetricType.timer agg, MetricType.timer agg2 =>
      ({ s with value := new.value, mtype := MetricType.timer (agg ++ agg2) },
       Except.ok ())
  | MetricType.set hs, MetricType.set hs2 =>
      ({ s with mtype := MetricType.set (hs ∪ hs2) }, Except.ok ())
  | _, _ => (s, Except.error MetricError.aggregating)

/-- Modelled from the spec: the `type` union of the Cap'n Proto metric
record (the generated `protocol_capnp` module is absent from the sources).
`counter`: no payload; `diff_counter`: one `f64` scalar; `gauge`: nested
union `unsigned` / `signed(i8)` modelled as `Option ℤ`; `timer`: list of
`f64`; `set`: list of `u64`. -/
inductive WireType where
  | counter : WireType
  | diffCounter (v : ℚ) : WireType
  | gauge (sign : Option ℤ) : WireType
  | timer (vs : List ℚ) : WireType
  | set (vs : List Nat) : WireType
  deriving DecidableEq

/-- Modelled from the spec: the optional `meta` group of the record —
optional `sampling` (`f32`) and an `update_counter` (`u32`). -/
structure WireMeta where
  sampling : Option ℚ
  update_counter : Nat
  deriving DecidableEq

/-- Modelled from the spec: one encoded metric record — `value` (`f64`),
the `type` union, an optional `timestamp` (`u64`) and the optional `meta`
group.  The name travels outside this struct and is handled by the external
`crate::name` collaborator. -/
structure WireRecord where
  value : ℚ
  type : WireType
  timestamp : Option Nat
  meta : Option WireMeta
  deriving DecidableEq

/-- `Metric::fill_capnp` (`src/metric.rs:221-273`): encode `self` into a
record.  The builder writes `value`, the `type` union (a `Set` is iterated
in unspecified `HashSet` order; the model iterates in ascending order),
the timestamp only when present, and always initialises `meta`, setting
`sampling` only when present and always `update_counter`. -/
def Metric.fill_capnp (self : Metric) : WireRecord :=
  { value := self.value
    type :=
      match self.mtype with
      | MetricType.counter => WireType.counter
      | MetricType.diffCounter v => WireType.diffCounter v
      | MetricType.gauge sign => WireType.gauge sign
      | MetricType.timer v => WireType.timer v
      | MetricType.set v => WireType.set (v.sort (· ≤ ·))
    timestamp := self.timestamp
    meta := some { sampling := self.sampling, update_counter := self.update_counter } }

/-- `Metric::from_capnp` (`src/metric.rs:157-219`), metric part (the name
bytes are parsed by the external `crate::name` collaborator and returned
alongside).  Decode builds the `Metric` directly — deliberately not through
`Metric::new` — so Timer/Set state is exactly the wire payload; a missing
`meta` group yields `sampling = none` and `update_counter = 1`.  The Rust
error paths (`Capnp`/`CapnpSchema`) correspond to malformed buffers, which
the structured record model precludes. -/
def Metric.from_capnp (r : WireRecord) : Metric :=
  { value := r.value
    mtype :=
      match r.type with
      | WireType.counter => MetricType.counter
      | WireType.diffCounter c => MetricType.diffCounter c
      | WireType.gauge sign => MetricType.gauge sign
      | WireType.timer vs => MetricType.timer vs
      | WireType.set vs => MetricType.set vs.toFinset
    timestamp := r.timestamp
    sampling :=
      match r.meta with
      | some mr => mr.sampling
      | none => none
    update_counter :=
      match r.meta with
      | some mr => mr.update_counter
      | none => 1 }

/-- The `MetricTypeName` enum of `src/metric.rs:300-307`. -/
inductive MetricTypeName where
  | default : MetricTypeName
  | counter : MetricTypeName
  | diffCounter : MetricTypeName
  | timer : MetricTypeName
  | gauge : MetricTypeName
  | set : MetricTypeName
  deriving DecidableEq

/-- `MetricTypeName::from_metric` (`src/metric.rs:310-322`). -/
def MetricTypeName.from_metric (m : Metric) : MetricTypeName :=
  match m.mtype with
  | MetricType.counter => MetricTypeName.counter
  | MetricType.diffCounter _ => MetricTypeName.diffCounter
  | MetricType.timer _ => MetricTypeName.timer
  | MetricType.gauge _ => MetricTypeName.gauge
  | MetricType.set _ => MetricTypeName.set

/-- `TryFrom<&str> for MetricTypeName` (`src/metric.rs:324-338`): the Rust
string match, compiled to the equivalent chain of equality tests. -/
def MetricTypeName.tryFrom (s : String) : Except MetricError MetricTypeName :=
  if s = "default" then Except.ok MetricTypeName.default
  else if s = "counter" then Except.ok MetricTypeName.counter
  else if s = "diff-counter" then Except.ok MetricTypeName.diffCounter
  else if s = "timer" then Except.ok MetricTypeName.timer
  else if s = "gauge" then Except.ok MetricTypeName.gauge
  else if s = "set" then Except.ok MetricTypeName.set
  else Except.error (MetricError.badTypeName s)

/-- `ToString for MetricTypeName` (`src/metric.rs:340-352`). -/
def MetricTypeName.toString (t : MetricTypeName) : String :=
  match t with
  | MetricTypeName.default => "default"
  | MetricTypeName.counter => "counter"
  | MetricTypeName.diffCounter => "diff-counter"
  | MetricTypeName.timer => "timer"
  | MetricTypeName.gauge => "gauge"
  | MetricTypeName.set => "set"

/-! Concrete bit patterns needed by the worked examples. -/

theorem f64bits_one : f64bits 1 = 4607182418800017408 := by decide

theorem f64bits_two : f64bits 2 = 4611686018427387904 := by decide

/-- C1: decoding the record produced by encoding any metric yields an equal
metric, for every variant and arbitrary value, timestamp presence, sampling
presence and Timer/Set payloads (the encoder always emits the meta group, so
the decoder's `update_counter` default never fires on an encoded record). -/
theorem from_capnp_fill_capnp_roundtrip (m : Metric) :
    Metric.from_capnp (Metric.fill_capnp m) = m := by
  obtain ⟨v, mt, ts, uc, sp⟩ := m
  cases mt <;> simp [Metric.fill_capnp, Metric.from_capnp, Finset.sort_toFinset]

/-- C2: merging one DiffCounter metric into another adds
`diff = new.value - prev` when `new.value > prev` and `diff = new.value`
otherwise to `self.value`, stores `new.value` as the previous reading, sums
the update counters, and succeeds. -/
theorem accumulate_diffCounter (self new : Metric) (prev p : ℚ)
    (h1 : self.mtype = MetricType.diffCounter prev)
    (h2 : new.mtype = MetricType.diffCounter p) :
    self.accumulate new =
      ({ self with
          value := self.value + (if new.value > prev then new.value - prev else new.value),
          mtype := MetricType.diffCounter new.value,
          update_counter := (self.update_counter + new.update_counter) % 2 ^ 32 },
       Except.ok ()) := by
  obtain ⟨v1, mt1, ts1, uc1, sp1⟩ := self
  obtain ⟨v2, mt2, ts2, uc2, sp2⟩ := new
  simp only [Metric.mk.injEq] at h1 h2 ⊢
  subst h1 h2
  simp [Metric.accumulate]

/-- Witness for C2 at concrete metrics: merging DiffCounter(value 7, prev 2)
into DiffCounter(value 3, prev 1) gives value 3 + (7 - 1) = 9. -/
theorem accumulate_diffCounter_witness :
    ((Metric.new 3 (MetricType.diffCounter 1) none none).accumulate
        (Metric.new 7 (MetricType.diffCounter 2) none none)).1.value = 9 := by
  rw [accumulate_diffCounter (Metric.new 3 (MetricType.diffCounter 1) none none)
        (Metric.new 7 (MetricType.diffCounter 2) none none) 1 2 rfl rfl]
  norm_num [Metric.new]

/-- C3 (counterexample): in the worked example — DiffCounter value 1 prev 0.1
accumulated with a freshly constructed DiffCounter value 1 prev 0.5 — the
resulting previous reading is NOT 0.5: the code stores `new.value` (= 1),
ignoring the incoming metric's own previous reading. -/
theorem diffCounter_example_prev_counterexample :
    ((Metric.new 1 (MetricType.diffCounter 0.1) none none).accumulate
        (Metric.new 1 (MetricType.diffCounter 0.5) none none)).1.mtype
      ≠ MetricType.diffCounter 0.5 := by
  simp only [Metric.new, Metric.accumulate]
  norm_num

/-- C3 (amended): the same accumulation leaves self with value
1 + (1 - 0.1) = 1.9 as claimed, but with previous reading 1 (the incoming
metric's value), and update counter 2. -/
theorem diffCounter_example_amended :
    ((Metric.new 1 (MetricType.diffCounter 0.1) none none).accumulate
        (Metric.new 1 (MetricType.diffCounter 0.5) none none)).1
      = { value := 1.9, mtype := MetricType.diffCounter 1, timestamp := none,
          update_counter := 2, sampling := none } := by
  simp only [Metric.new, Metric.accumulate]
  norm_num

/-- C4 (counterexample): Timer seeded with value 1 (empty sequence)
accumulated with Timer seeded with value 2 and extra element 3 does NOT
produce the sequence [1, 2, 3]: construction pushes the seed value AFTER the
payload's existing elements, so the incoming sequence is [3, 2]. -/
theorem timer_example_counterexample :
    ((Metric.new 1 (MetricType.timer []) none none).accumulate
        (Metric.new 2 (MetricType.timer [3]) none none)).1.mtype
      ≠ MetricType.timer [1, 2, 3] := by
  simp only [Metric.new, Metric.accumulate]
  norm_num

/-- C4 (amended): the same accumulation produces a sequence of exactly 3
elements in insertion order — [1, 3, 2] (seed 1, then the incoming metric's
sequence [3, 2]) — with the resulting scalar value equal to 2 (last
writer). -/
theorem timer_example_amended :
    ((Metric.new 1 (MetricType.timer []) none none).accumulate
        (Metric.new 2 (MetricType.timer [3]) none none)).1
      = { value := 2, mtype := MetricType.timer [1, 3, 2], timestamp := none,
          update_counter := 2, sampling := none } := by
  simp only [Metric.new, Metric.accumulate]
  norm_num

/-- C5 (counterexample): Set constructed with seed set {10,20} (value 1)
accumulated with Set constructed with seed set {10,30} (value 2) does NOT
produce the 3-element set {10,20,30}: construction also inserted the bit
patterns of the scalar values 1 and 2. -/
theorem set_example_counterexample :
    ((Metric.new 1 (MetricType.set {10, 20}) none none).accumulate
        (Metric.new 2 (MetricType.set {10, 30}) none none)).1.mtype
      ≠ MetricType.set {10, 20, 30} := by
  simp only [Metric.new, Metric.accumulate, f64bits_one, f64bits_two]
  decide

/-- C5 (amended): the same accumulation produces the 5-element union
{10, 20, 30, bits(1.0), bits(2.0)} — deduplicated by 64-bit pattern (the
shared element 10 appears once), where bits(1.0) = 4607182418800017408 and
bits(2.0) = 4611686018427387904 were inserted by construction. -/
theorem set_example_amended :
    ((Metric.new 1 (MetricType.set {10, 20}) none none).accumulate
        (Metric.new 2 (MetricType.set {10, 30}) none none)).1.mtype
      = MetricType.set
          {10, 20, 30, 4607182418800017408, 4611686018427387904}
    ∧ ({10, 20, 30, 4607182418800017408, 4611686018427387904} : Finset Nat).card
      = 5 := by
  constructor
  · simp only [Metric.new, Metric.accumulate, f64bits_one, f64bits_two,
      MetricType.set.injEq]
    ext a
    simp only [Finset.mem_union, Finset.mem_insert, Finset.mem_singleton]
    tauto
  · decide

/-- C6: for any pair of Gauge metrics, accumulation is decided solely by the
incoming metric's direction, regardless of self's stored direction:
`some 1` adds, `some (-1)` subtracts, `none` replaces; all succeed and sum
the update counters. -/
theorem accumulate_gauge (self new : Metric) (d1 d2 : Option ℤ)
    (h1 : self.mtype = MetricType.gauge d1)
    (h2 : new.mtype = MetricType.gauge d2) :
    (d2 = some 1 →
      self.accumulate new =
        ({ self with
            value := self.value + new.value,
            update_counter := (self.update_counter + new.update_counter) % 2 ^ 32 },
         Except.ok ()))
    ∧ (d2 = some (-1) →
      self.accumulate new =
        ({ self with
            value := self.value - new.value,
            update_counter := (self.update_counter + new.update_counter) % 2 ^ 32 },
         Except.ok ()))
    ∧ (d2 = none →
      self.accumulate new =
        ({ self with
            value := new.value,
            update_counter := (self.update_counter + new.update_counter) % 2 ^ 32 },
         Except.ok ())) := by
  obtain ⟨v1, mt1, ts1, uc1, sp1⟩ := self
  obtain ⟨v2, mt2, ts2, uc2, sp2⟩ := new
  dsimp only at h1 h2
  subst h1 h2
  refine ⟨?_, ?_, ?_⟩ <;> rintro rfl <;> simp [Metric.accumulate]

/-- Witness for C6 at the claim's concrete instance: Gauge(None, value 1)
accumulated with Gauge(Some(-1), value 2) yields value 1 - 2 = -1. -/
theorem accumulate_gauge_witness :
    ((Metric.new 1 (MetricType.gauge none) none none).accumulate
        (Metric.new 2 (MetricType.gauge (some (-1))) none none)).1.value = -1 := by
  rw [(accumulate_gauge (Metric.new 1 (MetricType.gauge none) none none)
        (Metric.new 2 (MetricType.gauge (some (-1))) none none)
        none (some (-1)) rfl rfl).2.1 rfl]
  norm_num [Metric.new]

/-- C7: whenever the two metrics' variant kinds differ, or both are Gauges
and the incoming direction is `some n` with `n` outside {-1, 1}, accumulate
returns the `Aggregating` error and the final state of self differs from the
original only in `update_counter`, which has nevertheless been summed
(update counters are added first, unconditionally, before the variant
match). -/
theorem accumulate_mismatch (self new : Metric)
    (h : MetricTypeName.from_metric self ≠ MetricTypeName.from_metric new
        ∨ ∃ d n, self.mtype = MetricType.gauge d
            ∧ new.mtype = MetricType.gauge (some n) ∧ n ≠ 1 ∧ n ≠ -1) :
    self.accumulate new =
      ({ self with
          update_counter := (self.update_counter + new.update_counter) % 2 ^ 32 },
       Except.error MetricError.aggregating) := by
  obtain ⟨v1, mt1, ts1, uc1, sp1⟩ := self
  obtain ⟨v2, mt2, ts2, uc2, sp2⟩ := new
  cases mt1 <;> cases mt2 <;>
    simp only [MetricTypeName.from_metric, ne_eq, reduceCtorEq,
      not_false_eq_true, true_or, not_true_eq_false, false_or,
      MetricType.gauge.injEq, Option.some.injEq, exists_and_left,
      exists_eq_left', exists_eq_left, exists_false, or_false, false_and,
      exists_const] at h <;>
    try simp [Metric.accumulate]
  obtain ⟨n, rfl, hn1, hn2⟩ := h
  simp [Metric.accumulate, hn1, hn2]

/-- Witness for C7 at a concrete cross-variant pair: accumulating a Counter
metric into a Gauge metric errors with `Aggregating` while having summed the
update counters. -/
theorem accumulate_mismatch_witness :
    (Metric.new 1 (MetricType.gauge none) (some 10) none).accumulate
        (Metric.new 2 MetricType.counter none none)
      = ({ value := 1, mtype := MetricType.gauge none, timestamp := some 10,
           update_counter := 2, sampling := none },
         Except.error MetricError.aggregating) := by
  rw [accumulate_mismatch (Metric.new 1 (MetricType.gauge none) (some 10) none)
        (Metric.new 2 MetricType.counter none none) (Or.inl (by decide))]
  rfl

/-- C8 (counterexample): the decoded DiffCounter auxiliary state is NOT
reconstructed from `value`: encoding a metric with value 1 and previous
reading 0.5 and decoding it back yields previous reading 0.5, not 1 — the
previous reading is itself the one scalar carried by the diff_counter arm,
transmitted separately from `value`. -/
theorem diffCounter_wire_counterexample :
    (Metric.from_capnp (Metric.fill_capnp
        { value := 1, mtype := MetricType.diffCounter 0.5, timestamp := none,
          update_counter := 1, sampling := none })).mtype
      ≠ MetricType.diffCounter 1 := by
  norm_num [Metric.fill_capnp, Metric.from_capnp]

/-- C8 (amended): the diff_counter arm of the wire record carries exactly
one floating scalar — the stored previous reading, transmitted separately
from the record's `value` field — and decoding reconstructs the DiffCounter
auxiliary state from that scalar, so no history is lost. -/
theorem diffCounter_wire_amended (m : Metric) (prev : ℚ)
    (h : m.mtype = MetricType.diffCounter prev) :
    (Metric.fill_capnp m).type = WireType.diffCounter prev
    ∧ (Metric.from_capnp (Metric.fill_capnp m)).mtype
        = MetricType.diffCounter prev := by
  obtain ⟨v, mt, ts, uc, sp⟩ := m
  dsimp only at h
  subst h
  simp [Metric.fill_capnp, Metric.from_capnp]

/-- Witness for the amended C8 at a concrete metric. -/
theorem diffCounter_wire_amended_witness :
    (Metric.fill_capnp
      { value := 1, mtype := MetricType.diffCounter 0.5, timestamp := none,
        update_counter := 1, sampling := none }).type
      = WireType.diffCounter 0.5 :=
  (diffCounter_wire_amended
    { value := 1, mtype := MetricType.diffCounter 0.5, timestamp := none,
      update_counter := 1, sampling := none } 0.5 rfl).1

/-- C9: decoding any record whose meta group is absent yields
`update_counter = 1` and `sampling = none`, regardless of the other
fields. -/
theorem from_capnp_no_meta (r : WireRecord) (h : r.meta = none) :
    (Metric.from_capnp r).update_counter = 1
    ∧ (Metric.from_capnp r).sampling = none := by
  obtain ⟨v, t, ts, meta⟩ := r
  dsimp only at h
  subst h
  simp [Metric.from_capnp]

/-- Witness for C9 at a concrete record without meta. -/
theorem from_capnp_no_meta_witness :
    (Metric.from_capnp
      { value := 7, type := WireType.counter, timestamp := some 5,
        meta := none }).update_counter = 1
    ∧ (Metric.from_capnp
      { value := 7, type := WireType.counter, timestamp := some 5,
        meta := none }).sampling = none :=
  from_capnp_no_meta
    { value := 7, type := WireType.counter, timestamp := some 5, meta := none }
    rfl

/-- C10: every enumerated type tag round-trips through its fixed string
(parse ∘ stringify = ok, hence parse → stringify → parse is the identity on
tags), and every string outside the six recognized names parses to the
`BadTypeName` error carrying the offending string. -/
theorem typeName_roundtrip :
    (∀ t : MetricTypeName,
      MetricTypeName.tryFrom (MetricTypeName.toString t) = Except.ok t)
    ∧ ∀ s : String,
        s ∉ ["default", "counter", "diff-counter", "timer", "gauge", "set"] →
        MetricTypeName.tryFrom s = Except.error (MetricError.badTypeName s) := by
  constructor
  · intro t
    cases t <;> rfl
  · intro s hs
    simp only [List.mem_cons, List.not_mem_nil, or_false, not_or] at hs
    obtain ⟨h1, h2, h3, h4, h5, h6⟩ := hs
    simp [MetricTypeName.tryFrom, h1, h2, h3, h4, h5, h6]

/-- Witness for C10: the tag `counter` round-trips, and the unrecognized
string "histogram" yields `BadTypeName "histogram"`. -/
theorem typeName_roundtrip_witness :
    MetricTypeName.tryFrom "counter" = Except.ok MetricTypeName.counter
    ∧ "histogram" ∉ ["default", "counter", "diff-counter", "timer", "gauge", "set"]
    ∧ MetricTypeName.tryFrom "histogram"
        = Except.error (MetricError.badTypeName "histogram") :=
  ⟨typeName_roundtrip.1 MetricTypeName.counter, by decide,
   typeName_roundtrip.2 "histogram" (by decide)⟩
